import Mathlib

/-!
Verification of the NeuroTrack Flask API server (`src/main.py`) against its
specification. The HTTP routes of `src/main.py` are embedded shallowly as pure
functions over an explicit store state `DB`; the `backend.auth` and
`backend.database` modules are not part of the repository snapshot, so their
operations are modelled from the specification (sections 4.1 and 4.3) and are
marked as such in their doc comments.
-/

/-- Embedding of Python `str.lower()` on a single character (ASCII case mapping). -/
def lowerChar (c : Char) : Char :=
  if h : 65 ≤ c.toNat ∧ c.toNat ≤ 90 then
    ⟨UInt32.ofNat (c.toNat + 32), by
      have hv : (UInt32.ofNat (c.toNat + 32)).toNat = c.toNat + 32 := by
        simp only [UInt32.toNat, UInt32.ofNat, BitVec.toNat_ofNat]
        omega
      simp only [UInt32.isValidChar, Nat.isValidChar, hv]
      omega⟩
  else c

theorem lowerChar_toNat_of_upper (c : Char) (h : 65 ≤ c.toNat ∧ c.toNat ≤ 90) :
    (lowerChar c).toNat = c.toNat + 32 := by
  unfold lowerChar
  rw [dif_pos h]
  show (UInt32.ofNat (c.toNat + 32)).toNat = c.toNat + 32
  simp only [UInt32.toNat, UInt32.ofNat, BitVec.toNat_ofNat]
  omega

theorem lowerChar_of_not_upper (c : Char) (h : ¬(65 ≤ c.toNat ∧ c.toNat ≤ 90)) :
    lowerChar c = c := by
  simp only [lowerChar, dif_neg h]

theorem lowerChar_lowerChar (c : Char) : lowerChar (lowerChar c) = lowerChar c := by
  by_cases h : 65 ≤ c.toNat ∧ c.toNat ≤ 90
  · have h1 : (lowerChar c).toNat = c.toNat + 32 := lowerChar_toNat_of_upper c h
    have h2 : ¬(65 ≤ (lowerChar c).toNat ∧ (lowerChar c).toNat ≤ 90) := by omega
    exact lowerChar_of_not_upper _ h2
  · rw [lowerChar_of_not_upper c h, lowerChar_of_not_upper c h]

/-- Whitespace test used by the Python `str.strip()` embedding. -/
def wsChar (c : Char) : Bool :=
  c.toNat = 32 || c.toNat = 9 || c.toNat = 10 || c.toNat = 13

theorem wsChar_lowerChar (c : Char) : wsChar (lowerChar c) = wsChar c := by
  by_cases h : 65 ≤ c.toNat ∧ c.toNat ≤ 90
  · have h1 : (lowerChar c).toNat = c.toNat + 32 := lowerChar_toNat_of_upper c h
    simp only [wsChar, h1]
    have : ¬(c.toNat + 32 = 32) ∧ ¬(c.toNat + 32 = 9) ∧ ¬(c.toNat + 32 = 10) ∧
        ¬(c.toNat + 32 = 13) := by omega
    have hc : ¬(c.toNat = 32) ∧ ¬(c.toNat = 9) ∧ ¬(c.toNat = 10) ∧ ¬(c.toNat = 13) := by omega
    simp [this.1, this.2.1, this.2.2.1, this.2.2.2, hc.1, hc.2.1, hc.2.2.1, hc.2.2.2]
  · rw [lowerChar_of_not_upper c h]

/-- Characters of a list with leading and trailing whitespace removed. -/
def trimList (l : List Char) : List Char :=
  ((l.dropWhile wsChar).reverse.dropWhile wsChar).reverse

/-- Embedding of Python `str.strip()`. -/
def pyStrip (s : String) : String := ⟨trimList s.data⟩

/-- Embedding of Python `str.lower()`. -/
def pyLower (s : String) : String := ⟨s.data.map lowerChar⟩

theorem dropWhile_dropWhile (p : α → Bool) (l : List α) :
    (l.dropWhile p).dropWhile p = l.dropWhile p := by
  induction l with
  | nil => rfl
  | cons a t ih =>
    by_cases h : p a
    · simp [List.dropWhile_cons, h, ih]
    · simp [List.dropWhile_cons, h]

theorem dropWhile_eq_self_of_front {p : α → Bool} {l m : List α}
    (hpre : l <+: m) (hm : m.dropWhile p = m) : l.dropWhile p = l := by
  cases l with
  | nil => rfl
  | cons a t =>
    obtain ⟨r, hr⟩ := hpre
    have hm' : m = a :: (t ++ r) := by rw [← hr]; rfl
    have hpa : ¬ p a := by
      intro hpa
      rw [hm'] at hm
      simp only [List.dropWhile_cons, hpa, if_true] at hm
      have hsuf : (t ++ r).dropWhile p <:+ (t ++ r) := List.dropWhile_suffix p
      have hlen := hsuf.length_le
      rw [hm] at hlen
      simp only [List.length_cons] at hlen
      omega
    simp [List.dropWhile_cons, hpa]

theorem trimList_trimList (l : List Char) : trimList (trimList l) = trimList l := by
  unfold trimList
  set A := l.dropWhile wsChar with hA
  set T := (A.reverse.dropWhile wsChar).reverse with hT
  have hApre : T <+: A := by
    obtain ⟨r, hr⟩ := List.dropWhile_suffix (l := A.reverse) wsChar
    refine ⟨r.reverse, ?_⟩
    have := congrArg List.reverse hr
    simpa [hT] using this
  have hAclean : A.dropWhile wsChar = A := dropWhile_dropWhile wsChar l
  have hTclean : T.dropWhile wsChar = T := dropWhile_eq_self_of_front hApre hAclean
  rw [hTclean]
  have hTrev : T.reverse.dropWhile wsChar = T.reverse := by
    have : T.reverse = A.reverse.dropWhile wsChar := by simp [hT]
    rw [this]
    exact dropWhile_dropWhile wsChar A.reverse
  rw [hTrev]
  simp [hT]

theorem dropWhile_map_lowerChar (l : List Char) :
    (l.map lowerChar).dropWhile wsChar = (l.dropWhile wsChar).map lowerChar := by
  rw [List.dropWhile_map]
  have hfun : wsChar ∘ lowerChar = wsChar := funext wsChar_lowerChar
  rw [hfun]

theorem trimList_map_lowerChar (l : List Char) :
    trimList (l.map lowerChar) = (trimList l).map lowerChar := by
  unfold trimList
  rw [dropWhile_map_lowerChar, ← List.map_reverse, dropWhile_map_lowerChar, ← List.map_reverse]

theorem pyStrip_pyLower (s : String) : pyStrip (pyLower s) = pyLower (pyStrip s) := by
  apply String.ext
  simp [pyStrip, pyLower, trimList_map_lowerChar]

theorem pyStrip_pyStrip (s : String) : pyStrip (pyStrip s) = pyStrip s := by
  apply String.ext
  simp [pyStrip, trimList_trimList]

theorem pyLower_pyLower (s : String) : pyLower (pyLower s) = pyLower s := by
  apply String.ext
  simp only [pyLower, List.map_map]
  apply List.map_congr_left
  intro a _
  exact lowerChar_lowerChar a

/-- Normalization applied by the auth service: trim then lowercase. -/
def trimLower (s : String) : String := pyLower (pyStrip s)

theorem trimLower_trimLower (s : String) : trimLower (trimLower s) = trimLower s := by
  unfold trimLower
  rw [pyStrip_pyLower, pyStrip_pyStrip, pyLower_pyLower]

theorem trimLower_pyStrip (s : String) : trimLower (pyStrip s) = trimLower s := by
  unfold trimLower
  rw [pyStrip_pyStrip]

theorem trimLower_trimLower_arg (s : String) : trimLower (pyLower (pyStrip s)) = trimLower s := by
  rw [show pyLower (pyStrip s) = trimLower s from rfl, trimLower_trimLower]

/-! ## Data model

JSON values appearing in responses: strings, numbers, and the flat profile
object. The response envelope of `jsonify` is embedded as the `Response`
structure, one optional field per key that any handler of `src/main.py` emits. -/

inductive JVal where
  | s : String → JVal
  | n : Nat → JVal
  | obj : List (String × String) → JVal
deriving DecidableEq, Repr

/-- Stored user record (spec section 3): numeric id, unique email, password hash,
role, role-specific profile, creation and last-login timestamps (clock values as
naturals). -/
structure User where
  id : Nat
  email : String
  password_hash : String
  role : String
  profile : List (String × String)
  created_at : Nat
  last_login : Nat
deriving DecidableEq, Repr

/-- State of the persistence adapter plus the request clock: the stored users, the
next id the store assigns, the current time, and a flag driving the storage-fault
signal of spec section 4.3. -/
structure DB where
  users : List User
  nextId : Nat
  now : Nat
  fault : Bool
deriving DecidableEq, Repr

/-- JSON response envelope together with the HTTP status code. -/
structure Response where
  status : Nat
  success : Bool
  error : Option String
  message : Option String
  user : Option (List (String × JVal))
  available : Option Bool
deriving DecidableEq, Repr

/-- Error-signal kinds of spec section 7: ValidationKind, AuthKind, StorageFault,
and `other` for any exception that is none of the named kinds (each carrying its
message text). -/
inductive Err where
  | validation : String → Err
  | auth : String → Err
  | database : String → Err
  | other : String → Err
deriving DecidableEq, Repr

/-- Modelled from the spec: `backend.database.find_user_by_email` is not under
`src/`. Section 4.3 requires a unique-email lookup and section 3 expects emails
to compare case-insensitively; an I/O fault surfaces as a storage-failure signal,
driven here by the `fault` flag. -/
def find_user_by_email (db : DB) (email : String) : Except String (Option User) :=
  if db.fault then .error "storage failure"
  else .ok (db.users.find? (fun u => pyLower u.email == pyLower email))

/-- Modelled from the spec: `backend.database.find_user_by_id` is not under
`src/`. Section 4.3: id lookup, with "not found" a normal empty result distinct
from the storage-fault signal. -/
def find_user_by_id (db : DB) (user_id : Nat) : Except String (Option User) :=
  if db.fault then .error "storage failure"
  else .ok (db.users.find? (fun u => u.id == user_id))

/-- Modelled from the spec: the user-creation primitive of `backend.database` is
not under `src/` (section 4.3 insert; the store assigns ids via `nextId`). -/
def insert_user (db : DB) (u : User) : Except String DB :=
  if db.fault then .error "storage failure"
  else .ok { db with users := db.users ++ [u], nextId := db.nextId + 1 }

/-- Modelled from the spec: the last-login update path of `backend.database` is
not under `src/` (section 4.3). -/
def update_last_login (db : DB) (user_id t : Nat) : Except String DB :=
  if db.fault then .error "storage failure"
  else
    let users' := db.users.map (fun u => if u.id == user_id then { u with last_login := t } else u)
    .ok { db with users := users' }

/-- Closed set of roles (spec section 3 and glossary). -/
def ROLES : List String := ["patient", "doctor", "physio"]

/-- Modelled from the spec: the minimum-strength password policy of section 4.1 is
"length at least N, left to the implementer to fix"; fixed here at 8, consistent
with the section 8 scenario password "Secret123". -/
def MIN_PASSWORD_LENGTH : Nat := 8

/-- Modelled from the spec: section 4.1 requires the email to be "syntactically
plausible", left to the implementer; fixed here as containing an at-sign and no
dollar sign (the latter also keeps plausible emails disjoint from hash strings). -/
def emailPlausible (e : String) : Bool := e.data.contains '@' && !(e.data.contains '$')

/-- Modelled from the spec: the salted one-way password hash of section 4.1 is
abstracted as an injective tagging function; only equality of hashes matters to
the control flow being verified. -/
def hashPassword (p : String) : String := "hashed$" ++ p

/-- Serialization of a stored user record as a JSON object (association list). -/
def userToDict (u : User) : List (String × JVal) :=
  [("id", .n u.id), ("email", .s u.email), ("password_hash", .s u.password_hash),
   ("role", .s u.role), ("profile", .obj u.profile),
   ("created_at", .n u.created_at), ("last_login", .n u.last_login)]

/-- Removal of the password_hash key, as in `src/main.py` line 285. -/
def stripPasswordHash (d : List (String × JVal)) : List (String × JVal) :=
  d.filter (fun kv => kv.1 ≠ "password_hash")

/-- Modelled from the spec: `backend.auth.register_user` is not under `src/`.
Section 4.1 `register`: normalizes email and role (trim, lowercase); fails with
ValidationKind if a constraint is violated (non-empty plausible email, password
meeting the minimum-strength policy, role in the closed set; every profile is a
mapping here, so the role-specific profile constraint left open by the spec is
vacuous); fails with AuthKind if the email is already registered; otherwise
hashes the password, persists the new record, and returns the created user with
the password hash stripped and creation timestamp set to the current time. -/
def register_user (db : DB) (email password role : String)
    (profile : List (String × String)) : Except Err (List (String × JVal) × DB) :=
  let e := trimLower email
  let r := trimLower role
  if e = "" then .error (.validation "Email is required")
  else if ¬ emailPlausible e then .error (.validation "Invalid email address")
  else if password.length < MIN_PASSWORD_LENGTH then
    .error (.validation "Password must be at least 8 characters")
  else if ¬ ROLES.contains r then .error (.validation "Invalid role")
  else
    match find_user_by_email db e with
    | .error m => .error (.database m)
    | .ok (some _) => .error (.auth "Email already registered")
    | .ok none =>
      let u : User := { id := db.nextId, email := e, password_hash := hashPassword password,
                        role := r, profile := profile, created_at := db.now, last_login := 0 }
      match insert_user db u with
      | .error m => .error (.database m)
      | .ok db' => .ok (stripPasswordHash (userToDict u), db')

/-- Modelled from the spec: `backend.auth.login_user` is not under `src/`.
Section 4.1 `login`: ValidationKind on an empty identifier or password; looks the
user up by identifier (email lookup — the alternate username identity is an open
question the spec leaves undefined, section 9); AuthKind on no match or a failed
password verification, with one message for both so the failure does not reveal
whether the identifier exists; on success persists last-login = now and returns
the record with the password hash stripped and the new timestamp. -/
def login_user (db : DB) (identifier password : String) :
    Except Err (List (String × JVal) × DB) :=
  if identifier = "" then .error (.validation "Identifier is required")
  else if password = "" then .error (.validation "Password is required")
  else
    match find_user_by_email db identifier with
    | .error m => .error (.database m)
    | .ok none => .error (.auth "Invalid credentials")
    | .ok (some u) =>
      if u.password_hash = hashPassword password then
        match update_last_login db u.id db.now with
        | .error m => .error (.database m)
        | .ok db' => .ok (stripPasswordHash (userToDict { u with last_login := db.now }), db')
      else .error (.auth "Invalid credentials")

/-- Parsed JSON request body: the string-valued fields plus the `profile` key
when bound to an object. A missing or non-JSON body is `none` at the routes
(`request.get_json()` yielding nothing); an empty object is falsy in Python, and
`ReqData.isEmpty` mirrors that. -/
structure ReqData where
  strFields : List (String × String)
  profileField : Option (List (String × String))
deriving DecidableEq, Repr

def ReqData.isEmpty (d : ReqData) : Bool := d.strFields.isEmpty && d.profileField.isNone

/-- Embedding of `data.get(k, default)` for string fields. -/
def getStrD (d : ReqData) (k dflt : String) : String :=
  match d.strFields.find? (fun kv => kv.1 == k) with
  | some kv => kv.2
  | none => dflt

/-- Embedding of `data.get(k)` (defaulting to None) for string fields. -/
def getStr? (d : ReqData) (k : String) : Option String :=
  (d.strFields.find? (fun kv => kv.1 == k)).map (fun kv => kv.2)

/-- Error handler of `src/main.py` lines 34-41. -/
def handle_validation_error (msg : String) : Response :=
  { status := 400, success := false, error := some "validation_error", message := some msg,
    user := none, available := none }

/-- Error handler of `src/main.py` lines 44-51. -/
def handle_auth_error (msg : String) : Response :=
  { status := 401, success := false, error := some "auth_error", message := some msg,
    user := none, available := none }

/-- Error handler of `src/main.py` lines 54-61: the message is replaced by a
generic text. -/
def handle_database_error (_msg : String) : Response :=
  { status := 500, success := false, error := some "database_error",
    message := some "An error occurred while processing your request",
    user := none, available := none }

/-- Error handler of `src/main.py` lines 64-71 for unexpected errors reaching the
framework. -/
def handle_internal_error : Response :=
  { status := 500, success := false, error := some "internal_error",
    message := some "An unexpected error occurred", user := none, available := none }

/-- Flask's dispatch of a raised signal to the registered error handler. -/
def dispatchErr : Err → Response
  | .validation m => handle_validation_error m
  | .auth m => handle_auth_error m
  | .database m => handle_database_error m
  | .other _ => handle_internal_error

/-- The except-clauses of the register/login routes (`src/main.py` lines 156-162
and 209-215): ValidationError and AuthError re-raise unchanged; any other
exception is logged and re-raised as DatabaseError carrying a generic message. -/
def wrapServiceErr (generic : String) : Err → Err
  | .validation m => .validation m
  | .auth m => .auth m
  | .database _ => .database generic
  | .other _ => .database generic

/-- POST /api/auth/register (`src/main.py` lines 107-162). -/
def api_register (db : DB) (body : Option ReqData) : Response × DB :=
  match body with
  | none => (dispatchErr (wrapServiceErr "Registration failed"
      (.validation "Request body is required")), db)
  | some data =>
    if data.isEmpty then
      (dispatchErr (wrapServiceErr "Registration failed"
        (.validation "Request body is required")), db)
    else
      let email := pyStrip (getStrD data "email" "")
      let password := getStrD data "password" ""
      let role := pyLower (pyStrip (getStrD data "role" ""))
      let profile := data.profileField.getD []
      match register_user db email password role profile with
      | .ok (user, db') =>
        ({ status := 201, success := true, error := none,
           message := some "Registration successful", user := some user,
           available := none }, db')
      | .error e => (dispatchErr (wrapServiceErr "Registration failed" e), db)

/-- The credential chosen by `data.get('identifier') or data.get('email', '')`
(`src/main.py` line 196): the email field is used when the identifier is absent
or falsy. -/
def rawIdentifier (data : ReqData) : String :=
  match getStr? data "identifier" with
  | some v => if v = "" then getStrD data "email" "" else v
  | none => getStrD data "email" ""

/-- The identifier after the whitespace trim of `src/main.py` line 197. -/
def loginIdentifier (data : ReqData) : String := pyStrip (rawIdentifier data)

/-- POST /api/auth/login (`src/main.py` lines 165-215). -/
def api_login (db : DB) (body : Option ReqData) : Response × DB :=
  match body with
  | none => (dispatchErr (wrapServiceErr "Login failed"
      (.validation "Request body is required")), db)
  | some data =>
    if data.isEmpty then
      (dispatchErr (wrapServiceErr "Login failed"
        (.validation "Request body is required")), db)
    else
      match login_user db (loginIdentifier data) (getStrD data "password" "") with
      | .ok (user, db') =>
        ({ status := 200, success := true, error := none,
           message := some "Login successful", user := some user,
           available := none }, db')
      | .error e => (dispatchErr (wrapServiceErr "Login failed" e), db)

/-- Body of the try-block of POST /api/auth/check-email (`src/main.py` lines
234-248): the availability computed, or the signal raised. -/
def check_email_result (db : DB) (body : Option ReqData) : Except Err Bool :=
  match body with
  | none => .error (.validation "Request body is required")
  | some data =>
    if data.isEmpty then .error (.validation "Request body is required")
    else
      match find_user_by_email db (pyStrip (getStrD data "email" "")) with
      | .error m => .error (.database m)
      | .ok u => .ok u.isNone

/-- POST /api/auth/check-email (`src/main.py` lines 218-256): any exception of
the try-block, of any kind, is answered in-handler with 500 "check_failed". -/
def api_check_email (db : DB) (body : Option ReqData) : Response × DB :=
  match check_email_result db body with
  | .ok avail =>
    ({ status := 200, success := true, error := none, message := none,
       user := none, available := some avail }, db)
  | .error _ =>
    ({ status := 500, success := false, error := some "check_failed",
       message := some "Could not check email availability", user := none,
       available := none }, db)

/-- GET /api/users/profile/{id} (`src/main.py` lines 261-298). -/
def api_get_profile (db : DB) (user_id : Nat) : Response × DB :=
  match find_user_by_id db user_id with
  | .error _ =>
    ({ status := 500, success := false, error := some "fetch_failed",
       message := some "Could not retrieve profile", user := none, available := none }, db)
  | .ok none =>
    ({ status := 404, success := false, error := some "not_found",
       message := some "User not found", user := none, available := none }, db)
  | .ok (some u) =>
    ({ status := 200, success := true, error := none, message := none,
       user := some (stripPasswordHash (userToDict u)), available := none }, db)

/-- One incoming API request, for reasoning over request sequences. -/
inductive Event where
  | register : Option ReqData → Event
  | login : Option ReqData → Event
  | checkEmail : Option ReqData → Event
  | getProfile : Nat → Event

/-- Store state after handling one request. -/
def step (db : DB) (e : Event) : DB :=
  match e with
  | .register b => (api_register db b).2
  | .login b => (api_login db b).2
  | .checkEmail b => (api_check_email db b).2
  | .getProfile i => (api_get_profile db i).2

/-- Store state after handling a sequence of requests. -/
def run (db : DB) (evs : List Event) : DB := evs.foldl step db

-- sanity checks (to be removed)
def regBody0 : ReqData :=
  { strFields := [("email", "a@x.com"), ("password", "Secret123"), ("role", "patient")],
    profileField := some [] }

def db0 : DB := { users := [], nextId := 1, now := 100, fault := false }

example : (api_register db0 (some regBody0)).1.status = 201 := by decide
example : (api_register (api_register db0 (some regBody0)).2 (some regBody0)).1.status = 401 := by decide
example : (api_check_email db0 (some { strFields := [("email", "a@x.com")], profileField := none })).1.available = some true := by decide
example :
    (api_check_email (api_register db0 (some regBody0)).2
      (some { strFields := [("email", "A@X.com ")], profileField := none })).1.available
      = some false := by decide
example : (api_get_profile db0 999999).1.status = 404 := by decide

/-- Key lookup in a serialized JSON object. -/
def lookupJ (d : List (String × JVal)) (k : String) : Option JVal :=
  (d.find? (fun kv => kv.1 == k)).map (fun kv => kv.2)

/-- C1 counterexample: a missing request body on POST /api/auth/check-email is answered
with HTTP 500 and slug "check_failed", not HTTP 400 as the claim states. -/
theorem c1_counterexample :
    (api_check_email { users := [], nextId := 1, now := 0, fault := false } none).1.status = 500 ∧
    (api_check_email { users := [], nextId := 1, now := 0, fault := false } none).1.status ≠ 400 ∧
    (api_check_email { users := [], nextId := 1, now := 0, fault := false } none).1.error =
      some "check_failed" := by
  refine ⟨rfl, by decide, rfl⟩

/-- C1 (amended): on a missing or non-JSON body, check-email raises a ValidationKind error
carrying "Request body is required", but the endpoint's blanket exception handler catches it
and maps it to HTTP 500 with slug "check_failed" and a generic message. -/
theorem c1_check_email_missing_body (db : DB) :
    check_email_result db none = .error (.validation "Request body is required") ∧
    api_check_email db none =
      ({ status := 500, success := false, error := some "check_failed",
         message := some "Could not check email availability", user := none,
         available := none }, db) := by
  exact ⟨rfl, rfl⟩

/-- C7: GET /api/users/profile/{id}: a storage fault yields HTTP 500; an absent id yields
HTTP 404 with slug "not_found"; an existing user yields HTTP 200 with the stored record
minus its password hash. -/
theorem c7_get_profile (db : DB) (user_id : Nat) (u : User) :
    (db.fault = true →
      api_get_profile db user_id =
        ({ status := 500, success := false, error := some "fetch_failed",
           message := some "Could not retrieve profile", user := none,
           available := none }, db)) ∧
    (find_user_by_id db user_id = .ok none →
      api_get_profile db user_id =
        ({ status := 404, success := false, error := some "not_found",
           message := some "User not found", user := none, available := none }, db)) ∧
    (find_user_by_id db user_id = .ok (some u) →
      api_get_profile db user_id =
        ({ status := 200, success := true, error := none, message := none,
           user := some (stripPasswordHash (userToDict u)), available := none }, db)) := by
  refine ⟨?_, ?_, ?_⟩
  · intro h
    simp [api_get_profile, find_user_by_id, h]
  · intro h
    simp [api_get_profile, h]
  · intro h
    simp [api_get_profile, h]

theorem c7_get_profile_witness :
    (api_get_profile { users := [], nextId := 1, now := 0, fault := true } 1).1.status = 500 ∧
    (api_get_profile { users := [], nextId := 1, now := 0, fault := false } 999999).1.status = 404 ∧
    (api_get_profile { users := [], nextId := 1, now := 0, fault := false } 999999).1.error =
      some "not_found" ∧
    (api_get_profile
      { users := [{ id := 7, email := "a@x.com", password_hash := hashPassword "Secret123",
                    role := "patient", profile := [], created_at := 5, last_login := 6 }],
        nextId := 8, now := 9, fault := false } 7).1.user =
      some (stripPasswordHash (userToDict
        { id := 7, email := "a@x.com", password_hash := hashPassword "Secret123",
          role := "patient", profile := [], created_at := 5, last_login := 6 })) := by
  refine ⟨?_, ?_, ?_, ?_⟩
  · exact congrArg Response.status (congrArg Prod.fst
      ((c7_get_profile { users := [], nextId := 1, now := 0, fault := true } 1
        { id := 0, email := "", password_hash := "", role := "", profile := [],
          created_at := 0, last_login := 0 }).1 rfl))
  · exact congrArg Response.status (congrArg Prod.fst
      ((c7_get_profile { users := [], nextId := 1, now := 0, fault := false } 999999
        { id := 0, email := "", password_hash := "", role := "", profile := [],
          created_at := 0, last_login := 0 }).2.1 rfl))
  · exact congrArg Response.error (congrArg Prod.fst
      ((c7_get_profile { users := [], nextId := 1, now := 0, fault := false } 999999
        { id := 0, email := "", password_hash := "", role := "", profile := [],
          created_at := 0, last_login := 0 }).2.1 rfl))
  · exact congrArg Response.user (congrArg Prod.fst
      ((c7_get_profile
        { users := [{ id := 7, email := "a@x.com", password_hash := hashPassword "Secret123",
                      role := "patient", profile := [], created_at := 5, last_login := 6 }],
          nextId := 8, now := 9, fault := false } 7
        { id := 7, email := "a@x.com", password_hash := hashPassword "Secret123",
          role := "patient", profile := [], created_at := 5, last_login := 6 }).2.2 rfl))

/-- C9: when the login body lacks an "identifier" key or its value is falsy (e.g. the empty
string), the "email" value (default "") is used instead, and the chosen value is
whitespace-trimmed before being handed to the login operation. -/
theorem c9_login_identifier_fallback (data : ReqData) (db : DB)
    (h : getStr? data "identifier" = none ∨ getStr? data "identifier" = some "") :
    loginIdentifier data = pyStrip (getStrD data "email" "") ∧
    (data.isEmpty = false →
      api_login db (some data) =
        (match login_user db (pyStrip (getStrD data "email" ""))
            (getStrD data "password" "") with
         | .ok (user, db') =>
           ({ status := 200, success := true, error := none,
              message := some "Login successful", user := some user,
              available := none }, db')
         | .error e => (dispatchErr (wrapServiceErr "Login failed" e), db))) := by
  have h1 : loginIdentifier data = pyStrip (getStrD data "email" "") := by
    unfold loginIdentifier rawIdentifier
    rcases h with h | h <;> simp [h]
  refine ⟨h1, ?_⟩
  intro hne
  simp only [api_login, hne, Bool.false_eq_true, if_false, h1]

theorem c9_login_identifier_fallback_witness :
    (getStr? { strFields := [("email", " a@x.com ")], profileField := none } "identifier" =
        none ∨
      getStr? { strFields := [("email", " a@x.com ")], profileField := none } "identifier" =
        some "") ∧
    loginIdentifier { strFields := [("email", " a@x.com ")], profileField := none } =
      pyStrip " a@x.com " ∧
    (getStr? { strFields := [("identifier", ""), ("email", "b@y.com")],
               profileField := none } "identifier" = none ∨
      getStr? { strFields := [("identifier", ""), ("email", "b@y.com")],
                profileField := none } "identifier" = some "") ∧
    loginIdentifier { strFields := [("identifier", ""), ("email", "b@y.com")],
                      profileField := none } = pyStrip "b@y.com" := by
  refine ⟨Or.inl (by decide), ?_, Or.inr (by decide), ?_⟩
  · exact (c9_login_identifier_fallback
      { strFields := [("email", " a@x.com ")], profileField := none }
      { users := [], nextId := 1, now := 0, fault := false } (Or.inl (by decide))).1
  · exact (c9_login_identifier_fallback
      { strFields := [("identifier", ""), ("email", "b@y.com")], profileField := none }
      { users := [], nextId := 1, now := 0, fault := false } (Or.inr (by decide))).1

/-- C10: check-email performs no validation of the email field: every non-empty JSON body
(healthy store) is answered HTTP 200 with `available` reporting whether the lookup of the
trimmed (possibly empty or missing) email found no user; the endpoint never answers 400. -/
theorem c10_check_email_no_validation (db : DB) (data : ReqData)
    (h1 : data.isEmpty = false) (h2 : db.fault = false) :
    find_user_by_email db (pyStrip (getStrD data "email" "")) =
      .ok (db.users.find? (fun u =>
        pyLower u.email == pyLower (pyStrip (getStrD data "email" "")))) ∧
    api_check_email db (some data) =
      ({ status := 200, success := true, error := none, message := none, user := none,
         available := some ((db.users.find? (fun u =>
           pyLower u.email == pyLower (pyStrip (getStrD data "email" "")))).isNone) }, db) ∧
    (∀ (db' : DB) (b : Option ReqData), (api_check_email db' b).1.status ≠ 400) := by
  refine ⟨?_, ?_, ?_⟩
  · simp [find_user_by_email, h2]
  · simp [api_check_email, check_email_result, h1, find_user_by_email, h2]
  · intro db' b
    unfold api_check_email
    rcases hq : check_email_result db' b with e | v <;> simp [hq]

theorem c10_check_email_no_validation_witness :
    ({ strFields := [("other_field", "1")], profileField := none } : ReqData).isEmpty =
      false ∧
    api_check_email { users := [], nextId := 1, now := 0, fault := false }
        (some { strFields := [("other_field", "1")], profileField := none }) =
      ({ status := 200, success := true, error := none, message := none, user := none,
         available := some true }, { users := [], nextId := 1, now := 0, fault := false }) ∧
    (api_check_email { users := [], nextId := 1, now := 0, fault := true } none).1.status ≠
      400 := by
  have h := c10_check_email_no_validation
    { users := [], nextId := 1, now := 0, fault := false }
    { strFields := [("other_field", "1")], profileField := none } (by decide) rfl
  exact ⟨by decide, h.2.1, h.2.2 { users := [], nextId := 1, now := 0, fault := true } none⟩

/-- C2: on register/login the boundary translates raised signals: ValidationKind to 400
"validation_error", AuthKind to 401 "auth_error", a storage fault to 500 "database_error"
with a generic message, and any other exception kind is wrapped into a storage fault and
reported as 500 "database_error" with the same fixed generic message, independent of the
original exception text, which therefore cannot appear in it unless it already occurs in
the fixed text; the register/login routes answer every service error exactly through this
translation. -/
theorem c2_error_translation (generic m : String) (db : DB) (data : ReqData) (e : Err) :
    (dispatchErr (wrapServiceErr generic (.validation m)) =
      { status := 400, success := false, error := some "validation_error",
        message := some m, user := none, available := none }) ∧
    (dispatchErr (wrapServiceErr generic (.auth m)) =
      { status := 401, success := false, error := some "auth_error",
        message := some m, user := none, available := none }) ∧
    (dispatchErr (wrapServiceErr generic (.database m)) =
      { status := 500, success := false, error := some "database_error",
        message := some "An error occurred while processing your request",
        user := none, available := none }) ∧
    (dispatchErr (wrapServiceErr generic (.other m)) =
      { status := 500, success := false, error := some "database_error",
        message := some "An error occurred while processing your request",
        user := none, available := none }) ∧
    (¬ (m.data <:+: "An error occurred while processing your request".data) →
      ∀ msg, (dispatchErr (wrapServiceErr generic (.other m))).message = some msg →
        ¬ (m.data <:+: msg.data)) ∧
    (data.isEmpty = false →
      register_user db (pyStrip (getStrD data "email" "")) (getStrD data "password" "")
          (pyLower (pyStrip (getStrD data "role" ""))) (data.profileField.getD []) =
        .error e →
      (api_register db (some data)).1 =
        dispatchErr (wrapServiceErr "Registration failed" e)) ∧
    (data.isEmpty = false →
      login_user db (loginIdentifier data) (getStrD data "password" "") = .error e →
      (api_login db (some data)).1 = dispatchErr (wrapServiceErr "Login failed" e)) := by
  refine ⟨rfl, rfl, rfl, rfl, ?_, ?_, ?_⟩
  · intro hno msg hmsg
    have hmm : "An error occurred while processing your request" = msg := by
      simpa [dispatchErr, wrapServiceErr, handle_database_error] using hmsg
    rw [← hmm]
    exact hno
  · intro hne hreg
    simp [api_register, hne, hreg]
  · intro hne hlog
    simp [api_login, hne, hlog]

theorem c2_error_translation_witness :
    (api_register { users := [], nextId := 1, now := 0, fault := false }
        (some { strFields := [("email", "bad")], profileField := none })).1 =
      dispatchErr (wrapServiceErr "Registration failed"
        (.validation "Invalid email address")) ∧
    (api_login { users := [], nextId := 1, now := 0, fault := false }
        (some { strFields := [("identifier", "someone")], profileField := none })).1 =
      dispatchErr (wrapServiceErr "Login failed" (.validation "Password is required")) ∧
    ¬ ("boom".data <:+: "An error occurred while processing your request".data) ∧
    (∀ msg,
      (dispatchErr (wrapServiceErr "Login failed" (.other "boom"))).message = some msg →
      ¬ ("boom".data <:+: msg.data)) := by
  have hsub : ¬ ("boom".data <:+: "An error occurred while processing your request".data) :=
    by decide
  refine ⟨?_, ?_, hsub, ?_⟩
  · exact (c2_error_translation "Registration failed" "x"
      { users := [], nextId := 1, now := 0, fault := false }
      { strFields := [("email", "bad")], profileField := none }
      (.validation "Invalid email address")).2.2.2.2.2.1 (by decide) rfl
  · exact (c2_error_translation "Login failed" "x"
      { users := [], nextId := 1, now := 0, fault := false }
      { strFields := [("identifier", "someone")], profileField := none }
      (.validation "Password is required")).2.2.2.2.2.2 (by decide) rfl
  · exact (c2_error_translation "Login failed" "boom"
      { users := [], nextId := 1, now := 0, fault := false }
      { strFields := [], profileField := none } (.other "boom")).2.2.2.2.1 hsub

theorem register_user_route_args (db : DB) (rawE p rawR : String)
    (prof : List (String × String)) :
    register_user db (pyStrip rawE) p (pyLower (pyStrip rawR)) prof =
      register_user db rawE p rawR prof := by
  simp only [register_user, trimLower_pyStrip, trimLower_trimLower_arg]

theorem register_user_cases (db : DB) (e p r : String) (prof : List (String × String))
    (hne : trimLower e ≠ "") (hpl : emailPlausible (trimLower e) = true)
    (hpw : MIN_PASSWORD_LENGTH ≤ p.length)
    (hrole : ROLES.contains (trimLower r) = true) :
    register_user db e p r prof =
      match find_user_by_email db (trimLower e) with
      | .error m => .error (.database m)
      | .ok (some _) => .error (.auth "Email already registered")
      | .ok none =>
        match insert_user db { id := db.nextId, email := trimLower e,
                               password_hash := hashPassword p, role := trimLower r,
                               profile := prof, created_at := db.now, last_login := 0 } with
        | .error m => .error (.database m)
        | .ok db' =>
          .ok (stripPasswordHash (userToDict { id := db.nextId, email := trimLower e,
                                               password_hash := hashPassword p,
                                               role := trimLower r, profile := prof,
                                               created_at := db.now, last_login := 0 }),
               db') := by
  simp only [register_user]
  rw [if_neg hne, if_neg (fun hn => hn hpl), if_neg (by omega), if_neg (fun hn => hn hrole)]

/-- C4 counterexample: re-registering an existing email (matched case-insensitively) with a
too-short password is answered 400 "validation_error", not the claimed unconditional 401
AuthKind: validation runs before the duplicate check. -/
theorem c4_counterexample :
    find_user_by_email
        { users := [{ id := 1, email := "a@x.com", password_hash := hashPassword "Secret123",
                      role := "patient", profile := [], created_at := 0, last_login := 0 }],
          nextId := 2, now := 5, fault := false } (trimLower "A@X.com") =
      .ok (some { id := 1, email := "a@x.com", password_hash := hashPassword "Secret123",
                  role := "patient", profile := [], created_at := 0, last_login := 0 }) ∧
    (api_register
        { users := [{ id := 1, email := "a@x.com", password_hash := hashPassword "Secret123",
                      role := "patient", profile := [], created_at := 0, last_login := 0 }],
          nextId := 2, now := 5, fault := false }
        (some { strFields := [("email", "A@X.com"), ("password", "x"), ("role", "patient")],
                profileField := none })).1.status = 400 ∧
    (api_register
        { users := [{ id := 1, email := "a@x.com", password_hash := hashPassword "Secret123",
                      role := "patient", profile := [], created_at := 0, last_login := 0 }],
          nextId := 2, now := 5, fault := false }
        (some { strFields := [("email", "A@X.com"), ("password", "x"), ("role", "patient")],
                profileField := none })).1.error = some "validation_error" ∧
    (api_register
        { users := [{ id := 1, email := "a@x.com", password_hash := hashPassword "Secret123",
                      role := "patient", profile := [], created_at := 0, last_login := 0 }],
          nextId := 2, now := 5, fault := false }
        (some { strFields := [("email", "A@X.com"), ("password", "x"), ("role", "patient")],
                profileField := none })).1.status ≠ 401 := by
  refine ⟨rfl, rfl, rfl, by decide⟩

/-- C4 (amended): a registration whose normalized email is already registered under
case-insensitive comparison fails with AuthKind (401, "auth_error") regardless of the
profile and of the particular password/role values, provided those values pass field
validation, which runs first. -/
theorem c4_duplicate_email (db : DB) (data : ReqData) (u : User)
    (hdne : data.isEmpty = false)
    (he : trimLower (getStrD data "email" "") ≠ "")
    (hpl : emailPlausible (trimLower (getStrD data "email" "")) = true)
    (hpw : MIN_PASSWORD_LENGTH ≤ (getStrD data "password" "").length)
    (hrole : ROLES.contains (trimLower (getStrD data "role" "")) = true)
    (hdup : find_user_by_email db (trimLower (getStrD data "email" "")) = .ok (some u)) :
    api_register db (some data) =
      ({ status := 401, success := false, error := some "auth_error",
         message := some "Email already registered", user := none,
         available := none }, db) := by
  have hsvc : register_user db (pyStrip (getStrD data "email" ""))
      (getStrD data "password" "") (pyLower (pyStrip (getStrD data "role" "")))
      (data.profileField.getD []) = .error (.auth "Email already registered") := by
    rw [register_user_route_args]
    rw [register_user_cases db _ _ _ _ he hpl hpw hrole, hdup]
  simp [api_register, hdne, hsvc, dispatchErr, wrapServiceErr, handle_auth_error]

theorem c4_duplicate_email_witness :
    find_user_by_email
        { users := [{ id := 1, email := "a@x.com", password_hash := hashPassword "Old1Pass",
                      role := "doctor", profile := [], created_at := 0, last_login := 0 }],
          nextId := 2, now := 5, fault := false } (trimLower " A@X.Com ") =
      .ok (some { id := 1, email := "a@x.com", password_hash := hashPassword "Old1Pass",
                  role := "doctor", profile := [], created_at := 0, last_login := 0 }) ∧
    api_register
        { users := [{ id := 1, email := "a@x.com", password_hash := hashPassword "Old1Pass",
                      role := "doctor", profile := [], created_at := 0, last_login := 0 }],
          nextId := 2, now := 5, fault := false }
        (some { strFields := [("email", " A@X.Com "), ("password", "Other1234"),
                              ("role", " PHYSIO ")], profileField := some [("bio", "zzz")] }) =
      ({ status := 401, success := false, error := some "auth_error",
         message := some "Email already registered", user := none, available := none },
       { users := [{ id := 1, email := "a@x.com", password_hash := hashPassword "Old1Pass",
                     role := "doctor", profile := [], created_at := 0, last_login := 0 }],
         nextId := 2, now := 5, fault := false }) := by
  refine ⟨rfl, ?_⟩
  exact c4_duplicate_email
    { users := [{ id := 1, email := "a@x.com", password_hash := hashPassword "Old1Pass",
                  role := "doctor", profile := [], created_at := 0, last_login := 0 }],
      nextId := 2, now := 5, fault := false }
    { strFields := [("email", " A@X.Com "), ("password", "Other1234"),
                    ("role", " PHYSIO ")], profileField := some [("bio", "zzz")] }
    { id := 1, email := "a@x.com", password_hash := hashPassword "Old1Pass",
      role := "doctor", profile := [], created_at := 0, last_login := 0 }
    rfl (by decide) (by decide) (by decide) (by decide) rfl

theorem mem_data_hashPassword (p : String) : '$' ∈ (hashPassword p).data := by
  rw [hashPassword, String.data_append]
  exact List.mem_append.mpr (Or.inl (by decide))

theorem emailPlausible_ne_hashPassword (e p : String) (h : emailPlausible e = true) :
    e ≠ hashPassword p := by
  intro heq
  have h2 := (Bool.and_eq_true _ _).mp h
  have hns : e.data.contains '$' = false := by
    have h3 := h2.2
    simpa using h3
  simp [List.contains] at hns
  exact hns (heq ▸ mem_data_hashPassword p)

theorem roles_cases (r : String) (h : ROLES.contains r = true) :
    r = "patient" ∨ r = "doctor" ∨ r = "physio" := by
  simpa [ROLES, List.contains] using h

theorem roles_length_le (r : String) (h : ROLES.contains r = true) : r.length ≤ 7 := by
  rcases roles_cases r h with h | h | h <;> subst h <;> decide

theorem length_hashPassword (p : String) : (hashPassword p).length = 7 + p.length := by
  rw [hashPassword, String.length_append]
  have h7 : ("hashed$" : String).length = 7 := rfl
  omega

/-- C3 counterexample: a client that picks its email equal to its password registers
successfully (201), and the response user necessarily carries that password value under the
key "email", so the claim's "no password value under any key name" fails as stated. -/
theorem c3_counterexample :
    (api_register { users := [], nextId := 1, now := 0, fault := false }
        (some { strFields := [("email", "ab@xy.com"), ("password", "ab@xy.com"),
                              ("role", "patient")], profileField := none })).1.status = 201 ∧
    ("email", JVal.s "ab@xy.com") ∈
      ((api_register { users := [], nextId := 1, now := 0, fault := false }
        (some { strFields := [("email", "ab@xy.com"), ("password", "ab@xy.com"),
                              ("role", "patient")], profileField := none })).1.user.getD []) ∧
    getStrD { strFields := [("email", "ab@xy.com"), ("password", "ab@xy.com"),
                            ("role", "patient")], profileField := none } "password" "" =
      "ab@xy.com" := by
  refine ⟨rfl, by decide, rfl⟩

/-- C3 (amended): every valid registration with a fresh email returns HTTP 201 and a user
object with no "password" or "password_hash" key and no value equal to the password hash;
no value equals the raw password either, provided the (normalized) email was not chosen
equal to the password itself. -/
theorem c3_register_no_password_leak (db : DB) (data : ReqData)
    (hdn : data.isEmpty = false)
    (he : trimLower (getStrD data "email" "") ≠ "")
    (hpl : emailPlausible (trimLower (getStrD data "email" "")) = true)
    (hpw : MIN_PASSWORD_LENGTH ≤ (getStrD data "password" "").length)
    (hrole : ROLES.contains (trimLower (getStrD data "role" "")) = true)
    (hfresh : find_user_by_email db (trimLower (getStrD data "email" "")) = .ok none)
    (hnp : trimLower (getStrD data "email" "") ≠ getStrD data "password" "") :
    (api_register db (some data)).1.status = 201 ∧
    ∃ d, (api_register db (some data)).1.user = some d ∧
      ∀ kv ∈ d, kv.1 ≠ "password" ∧ kv.1 ≠ "password_hash" ∧
        kv.2 ≠ JVal.s (getStrD data "password" "") ∧
        kv.2 ≠ JVal.s (hashPassword (getStrD data "password" "")) := by
  have hf : db.fault = false := by
    by_contra hc
    rw [Bool.not_eq_false] at hc
    rw [find_user_by_email, if_pos hc] at hfresh
    cases hfresh
  have hsvc : register_user db (pyStrip (getStrD data "email" ""))
      (getStrD data "password" "") (pyLower (pyStrip (getStrD data "role" "")))
      (data.profileField.getD []) =
      .ok (stripPasswordHash (userToDict
            { id := db.nextId, email := trimLower (getStrD data "email" ""),
              password_hash := hashPassword (getStrD data "password" ""),
              role := trimLower (getStrD data "role" ""),
              profile := data.profileField.getD [], created_at := db.now,
              last_login := 0 }),
          { db with
              users := db.users ++
                [{ id := db.nextId, email := trimLower (getStrD data "email" ""),
                   password_hash := hashPassword (getStrD data "password" ""),
                   role := trimLower (getStrD data "role" ""),
                   profile := data.profileField.getD [], created_at := db.now,
                   last_login := 0 }],
              nextId := db.nextId + 1 }) := by
    rw [register_user_route_args, register_user_cases db _ _ _ _ he hpl hpw hrole, hfresh]
    simp only [insert_user, hf, Bool.false_eq_true, if_false]
  have h1 : (api_register db (some data)).1 =
      { status := 201, success := true, error := none,
        message := some "Registration successful",
        user := some (stripPasswordHash (userToDict
          { id := db.nextId, email := trimLower (getStrD data "email" ""),
            password_hash := hashPassword (getStrD data "password" ""),
            role := trimLower (getStrD data "role" ""),
            profile := data.profileField.getD [], created_at := db.now,
            last_login := 0 })), available := none } := by
    simp [api_register, hdn, hsvc]
  refine ⟨by rw [h1], stripPasswordHash (userToDict
      { id := db.nextId, email := trimLower (getStrD data "email" ""),
        password_hash := hashPassword (getStrD data "password" ""),
        role := trimLower (getStrD data "role" ""),
        profile := data.profileField.getD [], created_at := db.now,
        last_login := 0 }), by rw [h1], ?_⟩
  intro kv hkv
  have hdd : stripPasswordHash (userToDict
      { id := db.nextId, email := trimLower (getStrD data "email" ""),
        password_hash := hashPassword (getStrD data "password" ""),
        role := trimLower (getStrD data "role" ""),
        profile := data.profileField.getD [], created_at := db.now,
        last_login := 0 }) =
      [("id", JVal.n db.nextId), ("email", JVal.s (trimLower (getStrD data "email" ""))),
       ("role", JVal.s (trimLower (getStrD data "role" ""))),
       ("profile", JVal.obj (data.profileField.getD [])),
       ("created_at", JVal.n db.now), ("last_login", JVal.n 0)] := by
    simp [stripPasswordHash, userToDict]
  rw [hdd] at hkv
  simp only [List.mem_cons, List.not_mem_nil, or_false] at hkv
  have hmin : MIN_PASSWORD_LENGTH = 8 := rfl
  rcases hkv with h | h | h | h | h | h <;> subst h
  · exact ⟨show ("id" : String) ≠ "password" by decide,
      show ("id" : String) ≠ "password_hash" by decide, by simp, by simp⟩
  · refine ⟨show ("email" : String) ≠ "password" by decide,
      show ("email" : String) ≠ "password_hash" by decide, ?_, ?_⟩
    · simp only [ne_eq, JVal.s.injEq]
      exact hnp
    · simp only [ne_eq, JVal.s.injEq]
      exact emailPlausible_ne_hashPassword _ _ hpl
  · refine ⟨show ("role" : String) ≠ "password" by decide,
      show ("role" : String) ≠ "password_hash" by decide, ?_, ?_⟩
    · simp only [ne_eq, JVal.s.injEq]
      intro hh
      have hle := roles_length_le _ hrole
      rw [hh] at hle
      omega
    · simp only [ne_eq, JVal.s.injEq]
      intro hh
      have hle := roles_length_le _ hrole
      have hlen := length_hashPassword (getStrD data "password" "")
      rw [hh, hlen] at hle
      omega
  · exact ⟨show ("profile" : String) ≠ "password" by decide,
      show ("profile" : String) ≠ "password_hash" by decide, by simp, by simp⟩
  · exact ⟨show ("created_at" : String) ≠ "password" by decide,
      show ("created_at" : String) ≠ "password_hash" by decide, by simp, by simp⟩
  · exact ⟨show ("last_login" : String) ≠ "password" by decide,
      show ("last_login" : String) ≠ "password_hash" by decide, by simp, by simp⟩

theorem c3_register_no_password_leak_witness :
    trimLower "a@x.com" ≠ "" ∧
    find_user_by_email { users := [], nextId := 1, now := 0, fault := false }
      (trimLower "a@x.com") = .ok none ∧
    ((api_register { users := [], nextId := 1, now := 0, fault := false }
        (some { strFields := [("email", "a@x.com"), ("password", "Secret123"),
                              ("role", "patient")], profileField := none })).1.status = 201 ∧
      ∃ d, (api_register { users := [], nextId := 1, now := 0, fault := false }
          (some { strFields := [("email", "a@x.com"), ("password", "Secret123"),
                                ("role", "patient")], profileField := none })).1.user =
          some d ∧
        ∀ kv ∈ d, kv.1 ≠ "password" ∧ kv.1 ≠ "password_hash" ∧
          kv.2 ≠ JVal.s "Secret123" ∧ kv.2 ≠ JVal.s (hashPassword "Secret123")) := by
  refine ⟨by decide, rfl, ?_⟩
  exact c3_register_no_password_leak
    { users := [], nextId := 1, now := 0, fault := false }
    { strFields := [("email", "a@x.com"), ("password", "Secret123"), ("role", "patient")],
      profileField := none }
    rfl (by decide) (by decide) (by decide) (by decide) rfl (by decide)

theorem dispatch_wrap_status_ne_201 (g : String) (e : Err) :
    (dispatchErr (wrapServiceErr g e)).status ≠ 201 := by
  cases e <;> simp [dispatchErr, wrapServiceErr, handle_validation_error,
    handle_auth_error, handle_database_error, handle_internal_error]

theorem register_user_ok_inv (db : DB) (e p r : String) (prof : List (String × String))
    (d : List (String × JVal)) (db2 : DB)
    (h : register_user db e p r prof = .ok (d, db2)) :
    db.fault = false ∧
    db2 = { db with
      users := db.users ++
        [{ id := db.nextId, email := trimLower e, password_hash := hashPassword p,
           role := trimLower r, profile := prof, created_at := db.now,
           last_login := 0 }],
      nextId := db.nextId + 1 } ∧
    d = stripPasswordHash (userToDict
      { id := db.nextId, email := trimLower e, password_hash := hashPassword p,
        role := trimLower r, profile := prof, created_at := db.now,
        last_login := 0 }) := by
  simp only [register_user] at h
  split at h
  · cases h
  split at h
  · cases h
  split at h
  · cases h
  split at h
  · cases h
  rcases hf : find_user_by_email db (trimLower e) with m | ou
  · rw [hf] at h
    cases h
  · rw [hf] at h
    cases ou with
    | some w => cases h
    | none =>
      have hfault : db.fault = false := by
        by_contra hc
        rw [Bool.not_eq_false] at hc
        rw [find_user_by_email, if_pos hc] at hf
        cases hf
      simp only [insert_user, hfault, Bool.false_eq_true, if_false] at h
      obtain ⟨h1, h2⟩ := Prod.mk.injEq .. ▸ Except.ok.inj h
      refine ⟨hfault, ?_, h1.symm⟩
      rw [← h2]
      simp [hfault]

/-- C6: registration normalizes the email and the role by trimming whitespace and
lowercasing before any validation or persistence call: the auth service's outcome depends
only on the normalized values, and every user record the route persists carries exactly
the normalized email and role of the raw request fields. -/
theorem c6_register_normalization (db : DB) (email password role : String)
    (profile : List (String × String)) (data : ReqData) :
    register_user db email password role profile =
      register_user db (trimLower email) password (trimLower role) profile ∧
    (data.isEmpty = false →
      ∀ resp db', api_register db (some data) = (resp, db') → resp.status = 201 →
        ∃ u : User, db'.users = db.users ++ [u] ∧
          u.email = trimLower (getStrD data "email" "") ∧
          u.role = trimLower (getStrD data "role" "")) := by
  constructor
  · simp only [register_user, trimLower_trimLower]
  · intro hne resp db' happ h201
    rcases hsvc : register_user db (pyStrip (getStrD data "email" ""))
        (getStrD data "password" "") (pyLower (pyStrip (getStrD data "role" "")))
        (data.profileField.getD []) with e | pr
    · exfalso
      have : (api_register db (some data)).1 =
          dispatchErr (wrapServiceErr "Registration failed" e) := by
        simp [api_register, hne, hsvc]
      rw [happ] at this
      simp only at this
      rw [this] at h201
      exact dispatch_wrap_status_ne_201 _ _ h201
    · obtain ⟨d, db2⟩ := pr
      obtain ⟨hfault, hdb2, hd⟩ := register_user_ok_inv _ _ _ _ _ _ _ hsvc
      have : api_register db (some data) =
          ({ status := 201, success := true, error := none,
             message := some "Registration successful", user := some d,
             available := none }, db2) := by
        simp [api_register, hne, hsvc]
      rw [happ] at this
      obtain ⟨hresp, hdbeq⟩ := Prod.mk.injEq .. ▸ this
      refine ⟨{ id := db.nextId,
                email := trimLower (pyStrip (getStrD data "email" "")),
                password_hash := hashPassword (getStrD data "password" ""),
                role := trimLower (pyLower (pyStrip (getStrD data "role" ""))),
                profile := data.profileField.getD [], created_at := db.now,
                last_login := 0 }, ?_, ?_, ?_⟩
      · rw [hdbeq, hdb2]
      · simp [trimLower_pyStrip]
      · simp [trimLower_trimLower_arg]

theorem c6_register_normalization_witness :
    register_user { users := [], nextId := 1, now := 0, fault := false }
        " A@X.Com " "Secret123" " PATIENT " [] =
      register_user { users := [], nextId := 1, now := 0, fault := false }
        (trimLower " A@X.Com ") "Secret123" (trimLower " PATIENT ") [] ∧
    ∃ u : User,
      (api_register { users := [], nextId := 1, now := 0, fault := false }
        (some { strFields := [("email", " A@X.Com "), ("password", "Secret123"),
                              ("role", " PATIENT ")], profileField := none })).2.users =
        [] ++ [u] ∧
      u.email = trimLower " A@X.Com " ∧ u.role = trimLower " PATIENT " := by
  have h := c6_register_normalization { users := [], nextId := 1, now := 0, fault := false }
    " A@X.Com " "Secret123" " PATIENT " []
    { strFields := [("email", " A@X.Com "), ("password", "Secret123"),
                    ("role", " PATIENT ")], profileField := none }
  refine ⟨h.1, ?_⟩
  have h2 := h.2 (by decide)
    (api_register { users := [], nextId := 1, now := 0, fault := false }
      (some { strFields := [("email", " A@X.Com "), ("password", "Secret123"),
                            ("role", " PATIENT ")], profileField := none })).1
    (api_register { users := [], nextId := 1, now := 0, fault := false }
      (some { strFields := [("email", " A@X.Com "), ("password", "Secret123"),
                            ("role", " PATIENT ")], profileField := none })).2
    rfl (by decide)
  exact h2

theorem isEmpty_false_of_getStr? (data : ReqData) (k v : String)
    (h : getStr? data k = some v) : data.isEmpty = false := by
  unfold getStr? at h
  unfold ReqData.isEmpty
  cases hs : data.strFields with
  | nil =>
    rw [hs] at h
    cases h
  | cons a t => simp [hs]

/-- C5: a login with a correct identifier/password pair is answered 200 with the user's
last-login set to the current clock, strictly above the previously stored value (the clock
having advanced past it), and the update is persisted; a login with an incorrect password
is answered 401 AuthKind and the store is unchanged. -/
theorem c5_login_last_login (db : DB) (data : ReqData) (rawI : String) (u : User)
    (hid : getStr? data "identifier" = some rawI)
    (hitr : pyStrip rawI ≠ "")
    (hfind : find_user_by_email db (pyStrip rawI) = .ok (some u))
    (hprev : u.last_login < db.now) :
    (getStrD data "password" "" ≠ "" →
      u.password_hash = hashPassword (getStrD data "password" "") →
      api_login db (some data) =
        ({ status := 200, success := true, error := none,
           message := some "Login successful",
           user := some (stripPasswordHash (userToDict { u with last_login := db.now })),
           available := none },
         { db with users := db.users.map (fun w =>
             if w.id == u.id then { w with last_login := db.now } else w) }) ∧
      lookupJ (stripPasswordHash (userToDict { u with last_login := db.now }))
        "last_login" = some (JVal.n db.now) ∧
      u.last_login < db.now) ∧
    (getStrD data "password" "" ≠ "" →
      u.password_hash ≠ hashPassword (getStrD data "password" "") →
      api_login db (some data) =
        ({ status := 401, success := false, error := some "auth_error",
           message := some "Invalid credentials", user := none, available := none },
         db)) := by
  have hrawne : rawI ≠ "" := by
    intro hh
    apply hitr
    rw [hh]
    rfl
  have hne : data.isEmpty = false := isEmpty_false_of_getStr? data _ _ hid
  have hli : loginIdentifier data = pyStrip rawI := by
    unfold loginIdentifier rawIdentifier
    rw [hid]
    simp [hrawne]
  have hfault : db.fault = false := by
    by_contra hc
    rw [Bool.not_eq_false] at hc
    rw [find_user_by_email, if_pos hc] at hfind
    cases hfind
  constructor
  · intro hp hmatch
    have hsvc : login_user db (pyStrip rawI) (getStrD data "password" "") =
        .ok (stripPasswordHash (userToDict { u with last_login := db.now }),
          { db with users := db.users.map (fun w =>
              if w.id == u.id then { w with last_login := db.now } else w) }) := by
      simp only [login_user]
      rw [if_neg hitr, if_neg hp, hfind]
      simp only [update_last_login, hfault, Bool.false_eq_true, if_false]
      rw [if_pos hmatch]
    refine ⟨?_, ?_, hprev⟩
    · simp [api_login, hne, hli, hsvc]
    · rfl
  · intro hp hmiss
    have hsvc : login_user db (pyStrip rawI) (getStrD data "password" "") =
        .error (.auth "Invalid credentials") := by
      simp only [login_user]
      rw [if_neg hitr, if_neg hp, hfind]
      simp only [update_last_login, hfault, Bool.false_eq_true, if_false]
      rw [if_neg hmiss]
    simp [api_login, hne, hli, hsvc, dispatchErr, wrapServiceErr, handle_auth_error]

theorem c5_login_last_login_witness :
    find_user_by_email
        { users := [{ id := 1, email := "a@x.com", password_hash := hashPassword "Secret123",
                      role := "patient", profile := [], created_at := 0, last_login := 50 }],
          nextId := 2, now := 100, fault := false } (pyStrip "a@x.com") =
      .ok (some { id := 1, email := "a@x.com", password_hash := hashPassword "Secret123",
                  role := "patient", profile := [], created_at := 0, last_login := 50 }) ∧
    (api_login
        { users := [{ id := 1, email := "a@x.com", password_hash := hashPassword "Secret123",
                      role := "patient", profile := [], created_at := 0, last_login := 50 }],
          nextId := 2, now := 100, fault := false }
        (some { strFields := [("identifier", "a@x.com"), ("password", "Secret123")],
                profileField := none })).1.status = 200 ∧
    lookupJ (stripPasswordHash (userToDict
        { id := 1, email := "a@x.com", password_hash := hashPassword "Secret123",
          role := "patient", profile := [], created_at := 0, last_login := 100 }))
      "last_login" = some (JVal.n 100) ∧
    (50 : Nat) < 100 ∧
    api_login
        { users := [{ id := 1, email := "a@x.com", password_hash := hashPassword "Secret123",
                      role := "patient", profile := [], created_at := 0, last_login := 50 }],
          nextId := 2, now := 100, fault := false }
        (some { strFields := [("identifier", "a@x.com"), ("password", "WrongPass1")],
                profileField := none }) =
      ({ status := 401, success := false, error := some "auth_error",
         message := some "Invalid credentials", user := none, available := none },
       { users := [{ id := 1, email := "a@x.com", password_hash := hashPassword "Secret123",
                     role := "patient", profile := [], created_at := 0, last_login := 50 }],
         nextId := 2, now := 100, fault := false }) := by
  have hok := (c5_login_last_login
    { users := [{ id := 1, email := "a@x.com", password_hash := hashPassword "Secret123",
                  role := "patient", profile := [], created_at := 0, last_login := 50 }],
      nextId := 2, now := 100, fault := false }
    { strFields := [("identifier", "a@x.com"), ("password", "Secret123")],
      profileField := none } "a@x.com"
    { id := 1, email := "a@x.com", password_hash := hashPassword "Secret123",
      role := "patient", profile := [], created_at := 0, last_login := 50 }
    rfl (by decide) rfl (by decide)).1 (by decide) rfl
  have hbad := (c5_login_last_login
    { users := [{ id := 1, email := "a@x.com", password_hash := hashPassword "Secret123",
                  role := "patient", profile := [], created_at := 0, last_login := 50 }],
      nextId := 2, now := 100, fault := false }
    { strFields := [("identifier", "a@x.com"), ("password", "WrongPass1")],
      profileField := none } "a@x.com"
    { id := 1, email := "a@x.com", password_hash := hashPassword "Secret123",
      role := "patient", profile := [], created_at := 0, last_login := 50 }
    rfl (by decide) rfl (by decide)).2 (by decide) (by decide)
  exact ⟨rfl, by rw [hok.1], hok.2.1, hok.2.2, hbad⟩

/-- The canonical check-email request body for an address. -/
def checkEmailBody (E : String) : ReqData :=
  { strFields := [("email", E)], profileField := none }

theorem api_check_email_snd (db : DB) (b : Option ReqData) :
    (api_check_email db b).2 = db := by
  unfold api_check_email
  split <;> rfl

theorem api_get_profile_snd (db : DB) (i : Nat) : (api_get_profile db i).2 = db := by
  unfold api_get_profile
  split <;> rfl

theorem api_register_snd (db : DB) (b : Option ReqData) :
    (api_register db b).2 = db ∨
    ∃ u : User, (api_register db b).2 =
      { db with users := db.users ++ [u], nextId := db.nextId + 1 } := by
  cases b with
  | none => exact Or.inl rfl
  | some data =>
    by_cases hne : data.isEmpty
    · left
      simp [api_register, hne]
    · rw [Bool.not_eq_true] at hne
      rcases hsvc : register_user db (pyStrip (getStrD data "email" ""))
          (getStrD data "password" "") (pyLower (pyStrip (getStrD data "role" "")))
          (data.profileField.getD []) with e | pr
      · left
        simp [api_register, hne, hsvc]
      · obtain ⟨d, db2⟩ := pr
        obtain ⟨hf, hdb2, _⟩ := register_user_ok_inv _ _ _ _ _ _ _ hsvc
        right
        refine ⟨{ id := db.nextId, email := trimLower (pyStrip (getStrD data "email" "")),
                  password_hash := hashPassword (getStrD data "password" ""),
                  role := trimLower (pyLower (pyStrip (getStrD data "role" ""))),
                  profile := data.profileField.getD [], created_at := db.now,
                  last_login := 0 }, ?_⟩
        rw [show (api_register db (some data)).2 = db2 from by simp [api_register, hne, hsvc]]
        exact hdb2

theorem login_user_ok_inv (db : DB) (ident p : String) (d : List (String × JVal)) (db2 : DB)
    (h : login_user db ident p = .ok (d, db2)) :
    ∃ u : User, db2 = { db with users := db.users.map (fun w =>
      if w.id == u.id then { w with last_login := db.now } else w) } := by
  unfold login_user at h
  split at h
  · cases h
  split at h
  · cases h
  split at h
  · cases h
  · cases h
  · rename_i u heq
    split at h
    · split at h
      · cases h
      · rename_i db' hupd
        obtain ⟨h1, h2⟩ := Prod.mk.injEq .. ▸ Except.ok.inj h
        unfold update_last_login at hupd
        split at hupd
        · cases hupd
        · have hdb' := Except.ok.inj hupd
          exact ⟨u, by rw [← h2, ← hdb']⟩
    · cases h

theorem api_login_snd (db : DB) (b : Option ReqData) :
    (api_login db b).2 = db ∨
    ∃ u : User, (api_login db b).2 = { db with users := db.users.map (fun w =>
      if w.id == u.id then { w with last_login := db.now } else w) } := by
  cases b with
  | none => exact Or.inl rfl
  | some data =>
    by_cases hne : data.isEmpty
    · left
      simp [api_login, hne]
    · rw [Bool.not_eq_true] at hne
      rcases hsvc : login_user db (loginIdentifier data) (getStrD data "password" "")
        with e | pr
      · left
        simp [api_login, hne, hsvc]
      · obtain ⟨d, db2⟩ := pr
        obtain ⟨u, hdb2⟩ := login_user_ok_inv _ _ _ _ _ hsvc
        right
        refine ⟨u, ?_⟩
        rw [show (api_login db (some data)).2 = db2 from by simp [api_login, hne, hsvc]]
        exact hdb2

theorem step_fault (db : DB) (ev : Event) : (step db ev).fault = db.fault := by
  cases ev with
  | register b =>
    rcases api_register_snd db b with h | ⟨u, h⟩ <;> simp [step, h]
  | login b =>
    rcases api_login_snd db b with h | ⟨u, h⟩ <;> simp [step, h]
  | checkEmail b => simp [step, api_check_email_snd]
  | getProfile i => simp [step, api_get_profile_snd]

theorem step_email_mono (db : DB) (ev : Event) (k : String)
    (h : ∃ u ∈ db.users, pyLower u.email = k) :
    ∃ u ∈ (step db ev).users, pyLower u.email = k := by
  obtain ⟨u, hu, hk⟩ := h
  cases ev with
  | register b =>
    rcases api_register_snd db b with h | ⟨w, h⟩
    · exact ⟨u, by rw [step, h]; exact hu, hk⟩
    · refine ⟨u, ?_, hk⟩
      rw [step, h]
      exact List.mem_append.mpr (Or.inl hu)
  | login b =>
    rcases api_login_snd db b with h | ⟨w, h⟩
    · exact ⟨u, by rw [step, h]; exact hu, hk⟩
    · refine ⟨if u.id == w.id then { u with last_login := db.now } else u, ?_, ?_⟩
      · rw [step, h]
        exact List.mem_map_of_mem _ hu
      · by_cases hc : (u.id == w.id) = true <;> simp [hc, hk]
  | checkEmail b => exact ⟨u, by rw [step, api_check_email_snd]; exact hu, hk⟩
  | getProfile i => exact ⟨u, by rw [step, api_get_profile_snd]; exact hu, hk⟩

theorem run_fault (db : DB) (evs : List Event) : (run db evs).fault = db.fault := by
  induction evs generalizing db with
  | nil => rfl
  | cons e t ih =>
    show (run (step db e) t).fault = db.fault
    rw [ih (step db e), step_fault]

theorem run_email_mono (db : DB) (evs : List Event) (k : String)
    (h : ∃ u ∈ db.users, pyLower u.email = k) :
    ∃ u ∈ (run db evs).users, pyLower u.email = k := by
  induction evs generalizing db with
  | nil => exact h
  | cons e t ih => exact ih (step db e) (step_email_mono db e k h)

theorem getStrD_checkEmailBody (E : String) : getStrD (checkEmailBody E) "email" "" = E :=
  rfl

/-- C8: check-email never mutates the store, so repeated calls for an unregistered address
keep reporting available: true; once a registration for that address succeeds, every later
check-email call for it — after any further sequence of register/login/check/profile
requests — reports available: false, and no operation removes users. -/
theorem c8_check_email_flip (db : DB) (regData : ReqData) (E : String)
    (evs : List Event) :
    (∀ (db' : DB) (b : Option ReqData), (api_check_email db' b).2 = db') ∧
    (db.fault = false →
      db.users.find? (fun u => pyLower u.email == pyLower (pyStrip E)) = none →
      api_check_email db (some (checkEmailBody E)) =
        ({ status := 200, success := true, error := none, message := none, user := none,
           available := some true }, db)) ∧
    (getStrD regData "email" "" = E →
      (api_register db (some regData)).1.status = 201 →
      api_check_email (run (api_register db (some regData)).2 evs)
          (some (checkEmailBody E)) =
        ({ status := 200, success := true, error := none, message := none, user := none,
           available := some false },
         run (api_register db (some regData)).2 evs)) := by
  refine ⟨fun db' b => api_check_email_snd db' b, ?_, ?_⟩
  · intro hf hnone
    have hres : check_email_result db (some (checkEmailBody E)) = .ok true := by
      simp only [check_email_result, getStrD_checkEmailBody]
      rw [if_neg (by simp [checkEmailBody, ReqData.isEmpty])]
      unfold find_user_by_email
      rw [if_neg (by simp [hf]), hnone]
      rfl
    simp [api_check_email, hres]
  · intro hE h201
    have hne : regData.isEmpty = false := by
      by_cases hc : regData.isEmpty
      · exfalso
        have : (api_register db (some regData)).1 =
            dispatchErr (wrapServiceErr "Registration failed"
              (.validation "Request body is required")) := by
          simp [api_register, hc]
        rw [this] at h201
        simp [dispatchErr, wrapServiceErr, handle_validation_error] at h201
      · rw [Bool.not_eq_true] at hc
        exact hc
    rcases hsvc : register_user db (pyStrip (getStrD regData "email" ""))
        (getStrD regData "password" "") (pyLower (pyStrip (getStrD regData "role" "")))
        (regData.profileField.getD []) with e | pr
    · exfalso
      have : (api_register db (some regData)).1 =
          dispatchErr (wrapServiceErr "Registration failed" e) := by
        simp [api_register, hne, hsvc]
      rw [this] at h201
      exact dispatch_wrap_status_ne_201 _ _ h201
    · obtain ⟨d, db2⟩ := pr
      obtain ⟨hf, hdb2, _⟩ := register_user_ok_inv _ _ _ _ _ _ _ hsvc
      have hsnd : (api_register db (some regData)).2 = db2 := by
        simp [api_register, hne, hsvc]
      have hmem : ∃ u ∈ db2.users, pyLower u.email = pyLower (pyStrip E) := by
        refine ⟨{ id := db.nextId, email := trimLower (pyStrip (getStrD regData "email" "")),
                  password_hash := hashPassword (getStrD regData "password" ""),
                  role := trimLower (pyLower (pyStrip (getStrD regData "role" ""))),
                  profile := regData.profileField.getD [], created_at := db.now,
                  last_login := 0 }, ?_, ?_⟩
        · rw [hdb2]
          exact List.mem_append.mpr (Or.inr (List.mem_singleton.mpr rfl))
        · show pyLower (trimLower (pyStrip (getStrD regData "email" ""))) =
            pyLower (pyStrip E)
          rw [hE]
          unfold trimLower
          rw [pyStrip_pyStrip, pyLower_pyLower]
      have hmem2 := run_email_mono db2 evs (pyLower (pyStrip E)) hmem
      have hfault2 : (run db2 evs).fault = false := by
        rw [run_fault, hdb2, hf]
      obtain ⟨w, hw, hwk⟩ := hmem2
      have hs : ((run db2 evs).users.find?
          (fun u => pyLower u.email == pyLower (pyStrip E))).isSome = true := by
        rw [List.find?_isSome]
        exact ⟨w, hw, by rw [beq_iff_eq]; exact hwk⟩
      obtain ⟨v, hv⟩ := Option.isSome_iff_exists.mp hs
      have hres : check_email_result (run db2 evs) (some (checkEmailBody E)) = .ok false := by
        simp only [check_email_result, getStrD_checkEmailBody]
        rw [if_neg (by simp [checkEmailBody, ReqData.isEmpty])]
        unfold find_user_by_email
        rw [if_neg (by simp [hfault2]), hv]
        rfl
      rw [hsnd]
      simp [api_check_email, hres]

theorem c8_check_email_flip_witness :
    api_check_email { users := [], nextId := 1, now := 0, fault := false }
        (some (checkEmailBody "a@x.com")) =
      ({ status := 200, success := true, error := none, message := none, user := none,
         available := some true }, { users := [], nextId := 1, now := 0, fault := false }) ∧
    (api_register { users := [], nextId := 1, now := 0, fault := false }
        (some { strFields := [("email", "a@x.com"), ("password", "Secret123"),
                              ("role", "patient")], profileField := none })).1.status =
      201 ∧
    api_check_email
        (run (api_register { users := [], nextId := 1, now := 0, fault := false }
            (some { strFields := [("email", "a@x.com"), ("password", "Secret123"),
                                  ("role", "patient")], profileField := none })).2
          [Event.checkEmail (some (checkEmailBody "a@x.com")), Event.getProfile 1,
           Event.login (some { strFields := [("identifier", "a@x.com"),
                               ("password", "Secret123")], profileField := none })])
        (some (checkEmailBody "a@x.com")) =
      ({ status := 200, success := true, error := none, message := none, user := none,
         available := some false },
       run (api_register { users := [], nextId := 1, now := 0, fault := false }
            (some { strFields := [("email", "a@x.com"), ("password", "Secret123"),
                                  ("role", "patient")], profileField := none })).2
          [Event.checkEmail (some (checkEmailBody "a@x.com")), Event.getProfile 1,
           Event.login (some { strFields := [("identifier", "a@x.com"),
                               ("password", "Secret123")], profileField := none })]) := by
  have h := c8_check_email_flip { users := [], nextId := 1, now := 0, fault := false }
    { strFields := [("email", "a@x.com"), ("password", "Secret123"),
                    ("role", "patient")], profileField := none } "a@x.com"
    [Event.checkEmail (some (checkEmailBody "a@x.com")), Event.getProfile 1,
     Event.login (some { strFields := [("identifier", "a@x.com"),
                         ("password", "Secret123")], profileField := none })]
  exact ⟨h.2.1 rfl rfl, by decide, h.2.2 rfl (by decide)⟩
